import Mathlib

/-!
Verification of the exam turn-flow state machine of the Kuleli English Centre
application (components/ExamMode.tsx) and of its evaluation-service helpers
(services/geminiService.ts).

The embedding is a pure shallow one: every React handler of `ExamMode`
becomes a state transformer on an explicit `ExamState` record, and every
asynchronous completion (evaluation-service response, speech playback ending,
microphone acquisition, timer tick) enters the machine as an `Event` carrying
its payload.  The recorder yields exactly one blob per recording session and
its stop callback runs `handleSubmission` on that blob unconditionally, from
whatever state the machine is in when the evaluation resolves; this is
modelled by a `pendingSubmit` flag armed whenever the recorder is stopped
(by `stopRecording` or by `handleSkipPart` stopping an active recording) and
consumed by exactly one `submit` event, which is enabled by the flag alone.
-/

namespace Kuleli

/-- `ExamPart` from types: Part 1 introduction, Part 2 picture comparison,
Part 3 discussion. -/
inductive ExamPart
  | INTRO
  | PICTURE
  | DISCUSSION
deriving DecidableEq

/-- `ExamStatus` from types: the UI state of the exam flow. -/
inductive ExamStatus
  | IDLE
  | AI_SPEAKING
  | USER_PREP
  | USER_SPEAKING
  | PROCESSING
  | PART_COMPLETED
  | COMPLETED
deriving DecidableEq

/-- Mistake categories accepted by the response schema in geminiService. -/
inductive MistakeType
  | grammar
  | pronunciation
  | vocabulary
deriving DecidableEq

/-- One (mistake, correction, category) triple. -/
structure Mistake where
  mistake : String
  correction : String
  type : MistakeType
deriving DecidableEq

/-- `FeedbackData` from types: the structured scoring record returned per turn.
Scores are rationals (JSON numbers; the grading rules use half-point steps). -/
structure FeedbackData where
  taskAchievementScore : Rat
  pronunciationScore : Rat
  grammarScore : Rat
  fluencyCoherenceScore : Rat
  feedbackText : String
  mistakesAndCorrections : List Mistake
  weaknesses : List String
  improvements : List String
deriving DecidableEq

/-- Result of `processStudentInput` as consumed by `handleSubmission`. -/
structure EvalResult where
  reply : String
  feedback : FeedbackData
  moveNext : Bool
deriving DecidableEq

/-- The component state of `ExamMode` (useState hooks and useRef cells that
drive the turn-flow logic). -/
structure ExamState where
  hasStarted : Bool
  part : ExamPart
  status : ExamStatus
  aiMessage : String
  currentFeedback : Option FeedbackData
  resultsHistory : ExamPart → Option FeedbackData
  quotaError : Bool
  timeLeft : Nat
  totalTime : Nat
  isNewPart : Bool
  autoAdvance : Bool
  turnCount : Nat
  isRecording : Bool
  pendingSubmit : Bool
  isStandalone : Bool

/-- Welcome message chosen by the initialPart effect (ExamMode lines 45-54). -/
def welcomeMessage : ExamPart → String
  | ExamPart.INTRO => "Welcome to the Speaking Exam. In Part 1, I\x27d like you to introduce yourself. Please tell me about your background, hobbies, and studies."
  | ExamPart.PICTURE => "Welcome. We will now begin Part 2: Picture Comparison. Please wait while I prepare the topics for you."
  | ExamPart.DISCUSSION => "Welcome. We will now begin Part 3: Discussion. Please wait while I prepare a topic for you."

/-- Initial state of one `ExamMode` mount: the useState initialisers together
with the `[initialPart, isStandalone]` effect (lines 45-61). -/
def initState (initialPart : ExamPart) (standalone : Bool) : ExamState :=
  { hasStarted := false
    part := initialPart
    status := ExamStatus.IDLE
    aiMessage := welcomeMessage initialPart
    currentFeedback := none
    resultsHistory := fun _ => none
    quotaError := false
    timeLeft := 0
    totalTime := 0
    isNewPart := true
    autoAdvance := false
    turnCount := 0
    isRecording := false
    pendingSubmit := false
    isStandalone := standalone }

/-- `setResultsHistory(prev => ({ ...prev, [part]: f }))`. -/
def updateHistory (rh : ExamPart → Option FeedbackData) (p : ExamPart)
    (f : FeedbackData) : ExamPart → Option FeedbackData :=
  fun q => if q = p then some f else rh q

/-- Apology shown when `processStudentInput` throws (line 276). -/
def apologyMessage : String :=
  "I\x27m sorry, I had trouble processing that. Please try again."

/-- The finish decision of `handleSubmission` (line 264):
`result.moveNext || autoAdvanceRef.current || nextTurn >= 3`,
with `nextTurn = turnCount + 1`. -/
def shouldFinish (s : ExamState) (r : EvalResult) : Bool :=
  r.moveNext || s.autoAdvance || decide (3 ≤ s.turnCount + 1)

/-- `handleSubmission` (lines 240-279).  The adapter call is the only
fallible step; `none` models a throw from `processStudentInput`, `some r`
a resolved result.  On success the turn counter is bumped first, then
the finish decision commits to the results history or plays the follow-up
prompt. -/
def handleSubmission (s : ExamState) (result : Option EvalResult) : ExamState :=
  match result with
  | none =>
      { s with quotaError := true
               aiMessage := apologyMessage
               status := ExamStatus.IDLE }
  | some r =>
      match shouldFinish s r with
      | true =>
          { s with quotaError := false
                   turnCount := s.turnCount + 1
                   currentFeedback := some r.feedback
                   resultsHistory := updateHistory s.resultsHistory s.part r.feedback
                   status := ExamStatus.PART_COMPLETED
                   autoAdvance := false }
      | false =>
          { s with quotaError := false
                   turnCount := s.turnCount + 1
                   currentFeedback := some r.feedback
                   aiMessage := r.reply
                   status := ExamStatus.AI_SPEAKING }

/-- `stopRecording` (lines 232-238): stopping the recorder hands its blob to
the stop callback, which performs the submission, so the flag is armed. -/
def stopRecording (s : ExamState) : ExamState :=
  if s.isRecording then
    { s with isRecording := false
             status := ExamStatus.PROCESSING
             pendingSubmit := true }
  else s

/-- `handleFinishWillingly` (lines 281-291). -/
def handleFinishWillingly (s : ExamState) : ExamState :=
  match s.currentFeedback with
  | some f =>
      { s with resultsHistory := updateHistory s.resultsHistory s.part f
               status := ExamStatus.PART_COMPLETED }
  | none =>
      let s1 := { s with autoAdvance := true }
      if s1.isRecording then stopRecording s1
      else { s1 with status := ExamStatus.PART_COMPLETED }

/-- The zeroed feedback written by `handleSkipPart` (lines 300-309). -/
def skippedFeedback : FeedbackData :=
  { taskAchievementScore := 0
    pronunciationScore := 0
    grammarScore := 0
    fluencyCoherenceScore := 0
    feedbackText := "Part skipped by student."
    mistakesAndCorrections := []
    weaknesses := []
    improvements := []
  }

/-- `handleSkipPart` (lines 293-321).  An active recording is stopped via
`mediaRecorderRef.current.stop()` (line 295); the stop callback installed by
`startRecording` (lines 219-224) remains armed, so the captured blob is still
submitted afterwards: the flag stays set. -/
def handleSkipPart (s : ExamState) : ExamState :=
  let s1 := if s.isRecording then { s with isRecording := false, pendingSubmit := true } else s
  { s1 with resultsHistory := updateHistory s1.resultsHistory s1.part skippedFeedback
            currentFeedback := some skippedFeedback
            status := ExamStatus.PART_COMPLETED
            aiMessage := "Part skipped." }

/-- `handleAiFinishedSpeaking` (lines 186-208).  `micOk` is whether
`startRecording` obtained the microphone. -/
def handleAiFinishedSpeaking (s : ExamState) (micOk : Bool) : ExamState :=
  if s.status = ExamStatus.COMPLETED ∨ s.status = ExamStatus.PART_COMPLETED then s
  else
    match s.part with
    | ExamPart.INTRO =>
        if s.isNewPart then
          { s with status := ExamStatus.USER_SPEAKING
                   timeLeft := 120
                   totalTime := 120
                   isNewPart := false
                   isRecording := micOk }
        else
          { s with status := ExamStatus.USER_SPEAKING
                   isRecording := micOk }
    | _ =>
        if s.isNewPart then
          { s with status := ExamStatus.USER_PREP
                   timeLeft := 60
                   totalTime := 60 }
        else
          { s with status := ExamStatus.USER_SPEAKING
                   isRecording := micOk }

/-- `handlePrepDone` (lines 337-342). -/
def handlePrepDone (s : ExamState) (micOk : Bool) : ExamState :=
  { s with status := ExamStatus.USER_SPEAKING
           timeLeft := 120
           totalTime := 120
           isNewPart := false
           isRecording := micOk }

/-- Synchronous prefix of `setupNextPart` (lines 110-112): status goes to
PROCESSING and the turn counter is reset on part entry. -/
def setupNextPartSync (s : ExamState) : ExamState :=
  { s with status := ExamStatus.PROCESSING
           turnCount := 0 }

/-- Successor part used by `advancePart` (`prev + 1`). -/
def nextPart : ExamPart → ExamPart
  | ExamPart.INTRO => ExamPart.PICTURE
  | ExamPart.PICTURE => ExamPart.DISCUSSION
  | ExamPart.DISCUSSION => ExamPart.DISCUSSION

/-- `advancePart` (lines 323-335) together with the `[hasStarted, part]`
effect that immediately runs `setupNextPart` for the new part. -/
def advancePart (s : ExamState) : ExamState :=
  if s.isStandalone = true ∨ s.part = ExamPart.DISCUSSION then
    { s with status := ExamStatus.COMPLETED }
  else
    setupNextPartSync
      { s with status := ExamStatus.PROCESSING
               isNewPart := true
               currentFeedback := none
               part := nextPart s.part }

/-- `handleStartExam` (lines 346-349) together with the `[hasStarted, part]`
effect (lines 95-108): INTRO plays the prefetched welcome audio, the other
parts run `setupNextPart`. -/
def handleStartExam (s : ExamState) : ExamState :=
  let s1 := { s with hasStarted := true }
  if s1.part = ExamPart.INTRO then { s1 with status := ExamStatus.AI_SPEAKING }
  else setupNextPartSync s1

/-- Completion of the asynchronous remainder of `setupNextPart`:
topic (and image) generation succeeded and `playAiAudio` starts, or the
generation threw and `quotaError` is raised (lines 113-141). -/
def topicReadyStep (s : ExamState) (ok : Bool) : ExamState :=
  if ok then { s with status := ExamStatus.AI_SPEAKING }
  else { s with quotaError := true }

/-- One tick of the interval in the timer effect (lines 82-87). -/
def tickStep (s : ExamState) : ExamState :=
  { s with timeLeft := if s.timeLeft ≤ 1 then 0 else s.timeLeft - 1 }

/-- The discrete events that drive the machine.  Payloads stand for the
outcomes of the asynchronous collaborators. -/
inductive Event
  | startExam
  | topicReady (ok : Bool)
  | aiFinished (micOk : Bool)
  | prepDone (micOk : Bool)
  | tick
  | expire (micOk : Bool)
  | stopRec
  | submit (result : Option EvalResult)
  | finishWillingly
  | skipPart
  | advance

/-- The machine: each event applies its handler when the conditions under
which the source can trigger it hold (button visibility guards, the timer
effect condition, callback registration), and is a no-op otherwise. -/
def step (s : ExamState) (e : Event) : ExamState :=
  match e with
  | Event.startExam =>
      if s.hasStarted then s else handleStartExam s
  | Event.topicReady ok =>
      if s.status = ExamStatus.PROCESSING ∧ s.isNewPart = true ∧
          s.part ≠ ExamPart.INTRO ∧ s.hasStarted = true then
        topicReadyStep s ok
      else s
  | Event.aiFinished ok =>
      if s.status = ExamStatus.AI_SPEAKING then handleAiFinishedSpeaking s ok else s
  | Event.prepDone ok =>
      if s.status = ExamStatus.USER_PREP then handlePrepDone s ok else s
  | Event.tick =>
      if (s.status = ExamStatus.USER_PREP ∨ s.status = ExamStatus.USER_SPEAKING) ∧
          0 < s.timeLeft then
        tickStep s
      else s
  | Event.expire ok =>
      if s.timeLeft = 0 ∧ s.hasStarted = true then
        if s.status = ExamStatus.USER_PREP then handlePrepDone s ok
        else if s.status = ExamStatus.USER_SPEAKING ∧ s.isRecording = true then stopRecording s
        else s
      else s
  | Event.stopRec =>
      if s.isRecording = true ∧ s.status ≠ ExamStatus.COMPLETED ∧
          ¬(s.status = ExamStatus.PART_COMPLETED ∧ s.currentFeedback.isSome = true) then
        stopRecording s
      else s
  | Event.submit result =>
      if s.pendingSubmit = true then
        handleSubmission { s with pendingSubmit := false } result
      else s
  | Event.finishWillingly =>
      if s.status = ExamStatus.USER_SPEAKING ∧ s.isRecording = false ∧ 0 < s.turnCount then
        handleFinishWillingly s
      else s
  | Event.skipPart =>
      if s.status = ExamStatus.USER_PREP ∨ s.status = ExamStatus.USER_SPEAKING then
        handleSkipPart s
      else s
  | Event.advance =>
      if s.status = ExamStatus.PART_COMPLETED ∧ s.currentFeedback.isSome = true then
        advancePart s
      else s

/-- States reachable by the machine from some mount of the component. -/
inductive Reachable : ExamState → Prop
  | base (p : ExamPart) (st : Bool) : Reachable (initState p st)
  | next (s : ExamState) (e : Event) : Reachable s → Reachable (step s e)

/-- The statuses in which a part is still being played (not yet completed). -/
def activeStatus : ExamStatus → Bool
  | ExamStatus.PART_COMPLETED => false
  | ExamStatus.COMPLETED => false
  | _ => true

/-- Inductive invariant of the machine: the turn counter is capped at 3 and
is at most 2 while a part is still active (the third completed submission
closes the part) and also whenever a submission is in flight; PART_COMPLETED
always carries a stored current feedback (so do positive turn counters); the
countdown never exceeds its total; nothing is armed before the exam starts. -/
def Inv (s : ExamState) : Prop :=
  s.turnCount ≤ 3
  ∧ (activeStatus s.status = true → s.turnCount ≤ 2)
  ∧ (s.pendingSubmit = true → s.turnCount ≤ 2)
  ∧ (s.status = ExamStatus.PART_COMPLETED → s.currentFeedback.isSome = true)
  ∧ (0 < s.turnCount → s.currentFeedback.isSome = true)
  ∧ s.timeLeft ≤ s.totalTime
  ∧ (s.hasStarted = false →
      s.turnCount = 0 ∧ s.status = ExamStatus.IDLE ∧
      s.pendingSubmit = false ∧ s.isRecording = false)

/-- Exact condition under which the timer effect fires the time-expired
transition (lines 88-91): the countdown is at zero, the exam has started, and
the machine is in USER_PREP, or in USER_SPEAKING with a live recording. -/
def ExpireEnabled (s : ExamState) : Prop :=
  s.timeLeft = 0 ∧ s.hasStarted = true ∧
    (s.status = ExamStatus.USER_PREP ∨
      (s.status = ExamStatus.USER_SPEAKING ∧ s.isRecording = true))

/-- The per-record score used by the final report: sum of the four
sub-scores. -/
def partScore (f : FeedbackData) : Rat :=
  f.taskAchievementScore + f.pronunciationScore + f.grammarScore +
    f.fluencyCoherenceScore

/-- `Object.values(resultsHistory)`: the stored records in ascending part
order (numeric keys 1, 2, 3). -/
def resultsValues (rh : ExamPart → Option FeedbackData) : List FeedbackData :=
  [rh ExamPart.INTRO, rh ExamPart.PICTURE, rh ExamPart.DISCUSSION].filterMap id

/-- `calculateTotalScore` (lines 351-355): a fold accumulating the four
sub-scores of every stored record. -/
def calculateTotalScore (rh : ExamPart → Option FeedbackData) : Rat :=
  (resultsValues rh).foldl
    (fun acc f =>
      acc + f.taskAchievementScore + f.pronunciationScore + f.grammarScore +
        f.fluencyCoherenceScore)
    0

/-- The aggregate as the design words it: the sum over all completed parts of
the per-part score.  Stated separately so the code fold can be compared
against it. -/
def specAggregateScore (rh : ExamPart → Option FeedbackData) : Rat :=
  ((resultsValues rh).map partScore).sum

/-- Worked example record for Part 1: sub-scores (4, 4, 4, 4). -/
def introRecord : FeedbackData :=
  { taskAchievementScore := 4, pronunciationScore := 4, grammarScore := 4
    fluencyCoherenceScore := 4, feedbackText := "Solid introduction."
    mistakesAndCorrections := [], weaknesses := [], improvements := [] }

/-- Worked example record for Part 2: sub-scores (8, 7, 9, 8). -/
def pictureRecord : FeedbackData :=
  { taskAchievementScore := 8, pronunciationScore := 7, grammarScore := 9
    fluencyCoherenceScore := 8, feedbackText := "Good comparison."
    mistakesAndCorrections := [], weaknesses := [], improvements := [] }

/-- Worked example record for Part 3: sub-scores (9, 8, 7, 9). -/
def discussionRecord : FeedbackData :=
  { taskAchievementScore := 9, pronunciationScore := 8, grammarScore := 7
    fluencyCoherenceScore := 9, feedbackText := "Thoughtful discussion."
    mistakesAndCorrections := [], weaknesses := [], improvements := [] }

/-- Results history holding the three worked example records. -/
def exampleHistory : ExamPart → Option FeedbackData
  | ExamPart.INTRO => some introRecord
  | ExamPart.PICTURE => some pictureRecord
  | ExamPart.DISCUSSION => some discussionRecord

/-- A sample successful evaluation used to drive concrete executions. -/
def sampleFeedback : FeedbackData :=
  { taskAchievementScore := 3, pronunciationScore := 4, grammarScore := 3
    fluencyCoherenceScore := 4, feedbackText := "Nice answer."
    mistakesAndCorrections := [], weaknesses := [], improvements := [] }

/-- An evaluation result whose continue signal asks for a follow-up turn. -/
def contResult : EvalResult :=
  { reply := "Tell me more about that.", feedback := sampleFeedback, moveNext := false }

/-- Concrete run for the manual-finish claim: start the INTRO part, record,
submit once (service asks to continue), then finish playback of the follow-up
prompt without the microphone.  Ends in USER_SPEAKING with one completed
turn and no live recording. -/
def c7s1 : ExamState := step (initState ExamPart.INTRO false) Event.startExam

def c7s2 : ExamState := step c7s1 (Event.aiFinished true)

def c7s3 : ExamState := step c7s2 Event.stopRec

def c7s4 : ExamState := step c7s3 (Event.submit (some contResult))

def c7State : ExamState := step c7s4 (Event.aiFinished false)

/-- Concrete run for the follow-up countdown claim: as above but one timer
tick elapses before the answer is submitted, so 119 seconds remain when the
follow-up prompt finishes playing. -/
def c8s1 : ExamState := step (initState ExamPart.INTRO false) Event.startExam

def c8s2 : ExamState := step c8s1 (Event.aiFinished true)

def c8s3 : ExamState := step c8s2 Event.tick

def c8s4 : ExamState := step c8s3 Event.stopRec

def c8State : ExamState := step c8s4 (Event.submit (some contResult))

/-- An evaluation result whose signal concludes the part. -/
def finishResult : EvalResult :=
  { reply := "Thank you, that completes this part.", feedback := sampleFeedback
    moveNext := true }

/-- Concrete run for the skip claim: start the INTRO part and let recording
begin, then skip while the recording is active.  The skip stops the recorder,
whose armed stop callback still submits the captured blob afterwards. -/
def c4sRec : ExamState :=
  step (step (initState ExamPart.INTRO false) Event.startExam) (Event.aiFinished true)

def c4sSkip : ExamState := step c4sRec Event.skipPart

/-- A processing state whose turn counter has already used two turns. -/
def c2State : ExamState :=
  { hasStarted := true
    part := ExamPart.PICTURE
    status := ExamStatus.PROCESSING
    aiMessage := "Part 2: Picture Comparison."
    currentFeedback := some sampleFeedback
    resultsHistory := fun _ => none
    quotaError := false
    timeLeft := 80
    totalTime := 120
    isNewPart := false
    autoAdvance := false
    turnCount := 2
    isRecording := false
    pendingSubmit := true
    isStandalone := false }

/-- Error value surfaced by the GoogleGenAI client as observed by
`isQuotaError`: an optional message, an optional HTTP status and the
JSON-stringified form of the whole error object. -/
structure SvcError where
  message : Option String
  status : Option Nat
  stringified : String
deriving DecidableEq

/-- Substring test standing for the JavaScript `String.prototype.includes`. -/
def containsSub (s pat : String) : Bool :=
  decide (pat.toList <:+: s.toList)

/-- ASCII lowering of one character, as `String.prototype.toLowerCase` acts
on the ASCII range relevant to the matched keyword. -/
def lowerChar (c : Char) : Char :=
  if 65 ≤ c.toNat ∧ c.toNat ≤ 90 then Char.ofNat (c.toNat + 32) else c

/-- ASCII lowering of a string. -/
def lowerString (s : String) : String :=
  String.mk (s.toList.map lowerChar)

/-- `isQuotaError` (geminiService lines 22-29): an error counts as a
quota/rate-limit error when its message or stringified form mentions 429,
its status is 429, the stringified form mentions RESOURCE_EXHAUSTED, or its
lowercase stringified form mentions the word quota. -/
def isQuotaError (e : SvcError) : Bool :=
  (match e.message with
   | some m => containsSub m "429"
   | none => false)
  || (match e.status with
      | some c => c == 429
      | none => false)
  || containsSub e.stringified "429"
  || containsSub e.stringified "RESOURCE_EXHAUSTED"
  || containsSub (lowerString e.stringified) "quota"

/-- `fetchWithRetry` (geminiService lines 31-41).  The wrapped operation is
modelled as a function from the attempt index to the outcome of that
attempt; the
second component of the result collects the sleeps performed before each
retry, in order.  Defaults in the source: `retries = 5`, `delay = 2000`, and
each retry doubles the delay. -/
def fetchWithRetry {α : Type} (f : Nat → Except SvcError α)
    (attempt : Nat) (retries : Nat) (delay : Nat) :
    Except SvcError α × List Nat :=
  match f attempt with
  | Except.ok a => (Except.ok a, [])
  | Except.error e =>
      match retries with
      | 0 => (Except.error e, [])
      | r + 1 =>
          if isQuotaError e then
            let rest := fetchWithRetry f (attempt + 1) r (delay * 2)
            (rest.1, delay :: rest.2)
          else (Except.error e, [])

/-- A quota-classified error (HTTP status 429). -/
def quotaErr : SvcError :=
  { message := none, status := some 429, stringified := "RESOURCE_EXHAUSTED" }

/-- An error that is not quota-classified. -/
def fatalErr : SvcError :=
  { message := some "network down", status := some 500, stringified := "network down" }

/-- The parsed JSON object `cleanedJson` consumed by the exam branch of
`processStudentInput` (geminiService lines 422-435): every field the
response schema can produce, each possibly absent. -/
structure RawJson where
  replyText : Option String
  taskAchievementScore : Option Rat
  pronunciationScore : Option Rat
  grammarScore : Option Rat
  fluencyCoherenceScore : Option Rat
  feedbackText : Option String
  mistakesAndCorrections : Option (List Mistake)
  weaknesses : Option (List String)
  improvements : Option (List String)
  examMoveToNext : Option Bool

/-- JavaScript `v || d` for a numeric field: an absent value or the falsy
number 0 yields the default. -/
def jsOrNum (v : Option Rat) (d : Rat) : Rat :=
  match v with
  | some x => if x = 0 then d else x
  | none => d

/-- JavaScript `v || d` for a string field: an absent value or the falsy
empty string yields the default. -/
def jsOrStr (v : Option String) (d : String) : String :=
  match v with
  | some x => if x = "" then d else x
  | none => d

/-- JavaScript `v || d` for an array field: arrays are truthy, so only an
absent value yields the default. -/
def jsOrList {α : Type} (v : Option (List α)) (d : List α) : List α :=
  match v with
  | some l => l
  | none => d

/-- The `feedback` object built by the exam branch of `processStudentInput`
(lines 425-434): each sub-score defaults to 0, the feedback text to the
empty string, and the three lists to empty lists. -/
def processStudentInputFeedback (j : RawJson) : FeedbackData :=
  { taskAchievementScore := jsOrNum j.taskAchievementScore 0
    pronunciationScore := jsOrNum j.pronunciationScore 0
    grammarScore := jsOrNum j.grammarScore 0
    fluencyCoherenceScore := jsOrNum j.fluencyCoherenceScore 0
    feedbackText := jsOrStr j.feedbackText ""
    mistakesAndCorrections := jsOrList j.mistakesAndCorrections []
    weaknesses := jsOrList j.weaknesses []
    improvements := jsOrList j.improvements [] }

/-- A parsed response in which every field is absent. -/
def emptyRawJson : RawJson :=
  { replyText := none, taskAchievementScore := none, pronunciationScore := none
    grammarScore := none, fluencyCoherenceScore := none, feedbackText := none
    mistakesAndCorrections := none, weaknesses := none, improvements := none
    examMoveToNext := none }

theorem inv_init (p : ExamPart) (st : Bool) : Inv (initState p st) := by
  refine ⟨?_, ?_, ?_, ?_, ?_, ?_, ?_⟩ <;> simp [initState, Inv]

theorem inv_step (s : ExamState) (e : Event) (h : Inv s) : Inv (step s e) := by
  obtain ⟨h1, h2, h3, h4, h5, h6, h7⟩ := h
  cases e with
  | startExam =>
      by_cases hst : s.hasStarted
      · simpa [step, hst] using ⟨h1, h2, h3, h4, h5, h6, h7⟩
      · obtain ⟨e1, e2, e3, e4⟩ := h7 (by simpa using hst)
        by_cases hp : s.part = ExamPart.INTRO <;>
          simp_all [step, handleStartExam, setupNextPartSync, Inv, activeStatus]
  | topicReady ok =>
      by_cases hg : s.status = ExamStatus.PROCESSING ∧ s.isNewPart = true ∧
          s.part ≠ ExamPart.INTRO ∧ s.hasStarted = true
      · obtain ⟨g1, g2, g3, g4⟩ := hg
        have ht2 : s.turnCount ≤ 2 := h2 (by simp [g1, activeStatus])
        cases ok <;>
          refine ⟨?_, ?_, ?_, ?_, ?_, ?_, ?_⟩ <;>
            simp_all [step, topicReadyStep, Inv, activeStatus] <;> omega
      · simpa [step, hg] using ⟨h1, h2, h3, h4, h5, h6, h7⟩
  | aiFinished ok =>
      by_cases hg : s.status = ExamStatus.AI_SPEAKING
      · have ht2 : s.turnCount ≤ 2 := h2 (by simp [hg, activeStatus])
        have hhs : s.hasStarted = true := by
          cases hh : s.hasStarted with
          | true => rfl
          | false => have h' := (h7 hh).2.1; rw [hg] at h'; cases h'
        cases hp : s.part <;> by_cases hn : s.isNewPart = true <;>
          refine ⟨?_, ?_, ?_, ?_, ?_, ?_, ?_⟩ <;>
            simp_all [step, handleAiFinishedSpeaking, Inv, activeStatus] <;> omega
      · simpa [step, hg] using ⟨h1, h2, h3, h4, h5, h6, h7⟩
  | prepDone ok =>
      by_cases hg : s.status = ExamStatus.USER_PREP
      · have ht2 : s.turnCount ≤ 2 := h2 (by simp [hg, activeStatus])
        have hhs : s.hasStarted = true := by
          cases hh : s.hasStarted with
          | true => rfl
          | false => have h' := (h7 hh).2.1; rw [hg] at h'; cases h'
        refine ⟨?_, ?_, ?_, ?_, ?_, ?_, ?_⟩ <;>
          simp_all [step, handlePrepDone, Inv, activeStatus] <;> omega
      · simpa [step, hg] using ⟨h1, h2, h3, h4, h5, h6, h7⟩
  | tick =>
      by_cases hg : (s.status = ExamStatus.USER_PREP ∨ s.status = ExamStatus.USER_SPEAKING) ∧
          0 < s.timeLeft
      · refine ⟨?_, ?_, ?_, ?_, ?_, ?_, ?_⟩ <;>
          simp_all [step, tickStep, Inv, activeStatus] <;>
          first
            | omega
            | (split <;> omega)
      · simpa [step, hg] using ⟨h1, h2, h3, h4, h5, h6, h7⟩
  | expire ok =>
      by_cases hg : s.timeLeft = 0 ∧ s.hasStarted = true
      · by_cases hp : s.status = ExamStatus.USER_PREP
        · have ht2 : s.turnCount ≤ 2 := h2 (by simp [hp, activeStatus])
          refine ⟨?_, ?_, ?_, ?_, ?_, ?_, ?_⟩ <;>
            simp_all [step, handlePrepDone, Inv, activeStatus] <;> omega
        · by_cases hu : s.status = ExamStatus.USER_SPEAKING ∧ s.isRecording = true
          · have ht2 : s.turnCount ≤ 2 := h2 (by simp [hu.1, activeStatus])
            refine ⟨?_, ?_, ?_, ?_, ?_, ?_, ?_⟩ <;>
              simp_all [step, stopRecording, Inv, activeStatus] <;> omega
          · simpa [step, hg, hp, hu] using ⟨h1, h2, h3, h4, h5, h6, h7⟩
      · simpa [step, hg] using ⟨h1, h2, h3, h4, h5, h6, h7⟩
  | stopRec =>
      by_cases hg : s.isRecording = true ∧ s.status ≠ ExamStatus.COMPLETED ∧
          ¬(s.status = ExamStatus.PART_COMPLETED ∧ s.currentFeedback.isSome = true)
      · obtain ⟨g1, g2, g3⟩ := hg
        have ht2 : s.turnCount ≤ 2 := by
          apply h2
          cases hs : s.status <;> simp [activeStatus]
          · exact g3 ⟨hs, h4 hs⟩
          · exact g2 hs
        have hhs : s.hasStarted = true := by
          cases hh : s.hasStarted with
          | true => rfl
          | false => have h' := (h7 hh).2.2.2; rw [g1] at h'; cases h'
        have hstep : step s Event.stopRec = stopRecording s := by
          simp only [step]
          rw [if_pos ⟨g1, g2, g3⟩]
        rw [hstep]
        refine ⟨?_, ?_, ?_, ?_, ?_, ?_, ?_⟩ <;>
          simp_all [stopRecording, Inv, activeStatus] <;> omega
      · have hstep : step s Event.stopRec = s := by
          simp only [step]
          rw [if_neg hg]
        rw [hstep]
        exact ⟨h1, h2, h3, h4, h5, h6, h7⟩
  | submit result =>
      by_cases hg : s.pendingSubmit = true
      · have ht2 : s.turnCount ≤ 2 := h3 hg
        have hhs : s.hasStarted = true := by
          cases hh : s.hasStarted with
          | true => rfl
          | false => have h' := (h7 hh).2.2.1; rw [hg] at h'; cases h'
        cases result with
        | none =>
            have hstep : step s (Event.submit none) =
                handleSubmission { s with pendingSubmit := false } none := by
              simp [step, hg]
            rw [hstep]
            refine ⟨?_, fun _ => ?_, fun hp => ?_, fun hp => ?_, fun hpos => ?_, ?_,
              fun hh => ?_⟩
            · simp only [handleSubmission]; omega
            · simp only [handleSubmission]; omega
            · simp [handleSubmission] at hp
            · simp [handleSubmission] at hp
            · simp only [handleSubmission] at hpos ⊢; exact h5 hpos
            · simp only [handleSubmission]; exact h6
            · simp only [handleSubmission] at hh; rw [hhs] at hh; cases hh
        | some r =>
            have hstep : step s (Event.submit (some r)) =
                handleSubmission { s with pendingSubmit := false } (some r) := by
              simp [step, hg]
            rw [hstep]
            have hsf : shouldFinish { s with pendingSubmit := false } r = shouldFinish s r := rfl
            cases hb : shouldFinish s r with
            | true =>
                refine ⟨?_, fun ha => ?_, fun hp => ?_, fun _ => ?_, fun _ => ?_, ?_,
                  fun hh => ?_⟩
                · simp only [handleSubmission, hsf, hb]; omega
                · simp only [handleSubmission, hsf, hb, activeStatus] at ha; cases ha
                · simp [handleSubmission, hsf, hb] at hp
                · simp only [handleSubmission, hsf, hb, Option.isSome_some]
                · simp only [handleSubmission, hsf, hb, Option.isSome_some]
                · simp only [handleSubmission, hsf, hb]; exact h6
                · simp only [handleSubmission, hsf, hb] at hh; rw [hhs] at hh; cases hh
            | false =>
                have hlt : s.turnCount + 1 ≤ 2 := by
                  by_cases hc : 3 ≤ s.turnCount + 1
                  · exfalso
                    have : shouldFinish s r = true := by
                      simp [shouldFinish, hc]
                    rw [hb] at this; cases this
                  · omega
                refine ⟨?_, fun _ => ?_, fun hp => ?_, fun hp => ?_, fun _ => ?_, ?_,
                  fun hh => ?_⟩
                · simp only [handleSubmission, hsf, hb]; omega
                · simp only [handleSubmission, hsf, hb]; omega
                · simp [handleSubmission, hsf, hb] at hp
                · simp [handleSubmission, hsf, hb] at hp
                · simp only [handleSubmission, hsf, hb, Option.isSome_some]
                · simp only [handleSubmission, hsf, hb]; exact h6
                · simp only [handleSubmission, hsf, hb] at hh; rw [hhs] at hh; cases hh
      · simpa [step, hg] using ⟨h1, h2, h3, h4, h5, h6, h7⟩
  | finishWillingly =>
      by_cases hg : s.status = ExamStatus.USER_SPEAKING ∧ s.isRecording = false ∧ 0 < s.turnCount
      · obtain ⟨g1, g2, g3⟩ := hg
        have ht2 : s.turnCount ≤ 2 := h2 (by simp [g1, activeStatus])
        have hhs : s.hasStarted = true := by
          cases hh : s.hasStarted with
          | true => rfl
          | false => have h' := (h7 hh).2.1; rw [g1] at h'; cases h'
        cases hcf : s.currentFeedback with
        | none => exact absurd (h5 g3) (by simp [hcf])
        | some f =>
            refine ⟨?_, ?_, ?_, ?_, ?_, ?_, ?_⟩ <;>
              simp_all [step, handleFinishWillingly, Inv, activeStatus] <;> omega
      · simpa [step, hg] using ⟨h1, h2, h3, h4, h5, h6, h7⟩
  | skipPart =>
      by_cases hg : s.status = ExamStatus.USER_PREP ∨ s.status = ExamStatus.USER_SPEAKING
      · have ht2 : s.turnCount ≤ 2 := by
          rcases hg with h' | h' <;> exact h2 (by simp [h', activeStatus])
        have hhs : s.hasStarted = true := by
          cases hh : s.hasStarted with
          | true => rfl
          | false =>
              have h' := (h7 hh).2.1
              rcases hg with hx | hx <;> rw [hx] at h' <;> cases h'
        by_cases hr : s.isRecording = true <;>
          refine ⟨?_, ?_, ?_, ?_, ?_, ?_, ?_⟩ <;>
            simp_all [step, handleSkipPart, Inv, activeStatus] <;> omega
      · simpa [step, hg] using ⟨h1, h2, h3, h4, h5, h6, h7⟩
  | advance =>
      by_cases hg : s.status = ExamStatus.PART_COMPLETED ∧ s.currentFeedback.isSome = true
      · have hhs : s.hasStarted = true := by
          cases hh : s.hasStarted with
          | true => rfl
          | false => have h' := (h7 hh).2.1; rw [hg.1] at h'; cases h'
        by_cases hl : s.isStandalone = true ∨ s.part = ExamPart.DISCUSSION <;>
          refine ⟨?_, ?_, ?_, ?_, ?_, ?_, ?_⟩ <;>
            simp_all [step, advancePart, setupNextPartSync, Inv, activeStatus] <;> omega
      · simpa [step, hg] using ⟨h1, h2, h3, h4, h5, h6, h7⟩

theorem reachable_inv (s : ExamState) (h : Reachable s) : Inv s := by
  induction h with
  | base p st => exact inv_init p st
  | next s e _ ih => exact inv_step s e ih

theorem c7State_reachable : Reachable c7State :=
  Reachable.next c7s4 (Event.aiFinished false)
    (Reachable.next c7s3 (Event.submit (some contResult))
      (Reachable.next c7s2 Event.stopRec
        (Reachable.next c7s1 (Event.aiFinished true)
          (Reachable.next (initState ExamPart.INTRO false) Event.startExam
            (Reachable.base ExamPart.INTRO false)))))

theorem c8State_reachable : Reachable c8State :=
  Reachable.next c8s4 (Event.submit (some contResult))
    (Reachable.next c8s3 Event.stopRec
      (Reachable.next c8s2 Event.tick
        (Reachable.next c8s1 (Event.aiFinished true)
          (Reachable.next (initState ExamPart.INTRO false) Event.startExam
            (Reachable.base ExamPart.INTRO false)))))

/-- C1: in every reachable state the turn counter is at most 3 (in
particular it never exceeds 3 before PART_COMPLETED is reached), it is reset
to 0 on part entry (both on starting the exam and on advancing to the next
part), and it is incremented exactly once per completed submission and left
unchanged by a failed one. -/
theorem C1_turn_cap (s : ExamState) (h : Reachable s) :
    s.turnCount ≤ 3
    ∧ (s.status ≠ ExamStatus.PART_COMPLETED → s.turnCount ≤ 3)
    ∧ (s.hasStarted = false → (step s Event.startExam).turnCount = 0)
    ∧ (s.status = ExamStatus.PART_COMPLETED → s.currentFeedback.isSome = true →
        s.isStandalone = false → s.part ≠ ExamPart.DISCUSSION →
        (step s Event.advance).turnCount = 0)
    ∧ (∀ r, (handleSubmission s (some r)).turnCount = s.turnCount + 1)
    ∧ (handleSubmission s none).turnCount = s.turnCount := by
  obtain ⟨h1, h2, h3, h4, h5, h6, h7⟩ := reachable_inv s h
  refine ⟨h1, fun _ => h1, fun hst => ?_, fun hpc hcf hsa hd => ?_, fun r => ?_, rfl⟩
  · have e1 := (h7 hst).1
    by_cases hp : s.part = ExamPart.INTRO <;>
      simp [step, hst, handleStartExam, setupNextPartSync, hp, e1]
  · simp [step, hpc, hcf, advancePart, setupNextPartSync, hsa, hd]
  · cases hb : shouldFinish s r <;> simp [handleSubmission, hb]

theorem C1_turn_cap_witness : (initState ExamPart.INTRO false).turnCount ≤ 3 :=
  (C1_turn_cap (initState ExamPart.INTRO false)
    (Reachable.base ExamPart.INTRO false)).1

/-- C2: when the evaluation succeeds and the service signals continue
(moveNext false) but the turn counter reaches the cap of 3 with this
completed submission, the machine still transitions to PART_COMPLETED and
commits the returned feedback record to the results history: the cap
overrides the signal. -/
theorem C2_cap_overrides (s : ExamState) (r : EvalResult)
    (hmv : r.moveNext = false) (hcap : 3 ≤ s.turnCount + 1) :
    (handleSubmission s (some r)).status = ExamStatus.PART_COMPLETED
    ∧ (handleSubmission s (some r)).resultsHistory s.part = some r.feedback := by
  have hb : shouldFinish s r = true := by simp [shouldFinish, hcap]
  exact ⟨by simp [handleSubmission, hb],
    by simp [handleSubmission, hb, updateHistory]⟩

theorem C2_cap_overrides_witness :
    contResult.moveNext = false ∧ 3 ≤ c2State.turnCount + 1
    ∧ (handleSubmission c2State (some contResult)).status = ExamStatus.PART_COMPLETED
    ∧ (handleSubmission c2State (some contResult)).resultsHistory c2State.part =
        some contResult.feedback :=
  ⟨rfl, by decide, (C2_cap_overrides c2State contResult rfl (by decide)).1,
    (C2_cap_overrides c2State contResult rfl (by decide)).2⟩

/-- C3: the aggregate score of the final report equals the exact sum of the
four sub-scores over all records in the results history, and the worked
example with records (4,4,4,4), (8,7,9,8), (9,8,7,9) yields 81. -/
theorem C3_aggregate (rh : ExamPart → Option FeedbackData) :
    calculateTotalScore rh = specAggregateScore rh
    ∧ calculateTotalScore exampleHistory = 81 := by
  constructor
  · cases h1 : rh ExamPart.INTRO <;> cases h2 : rh ExamPart.PICTURE <;>
      cases h3 : rh ExamPart.DISCUSSION <;>
        simp [calculateTotalScore, specAggregateScore, resultsValues, partScore,
          h1, h2, h3, List.filterMap, List.foldl] <;> ring
  · norm_num [calculateTotalScore, resultsValues, exampleHistory, introRecord,
      pictureRecord, discussionRecord, List.filterMap, List.foldl]

/-- C4 (claim as stated is false): a reachable run in which the part is
skipped while a recording is active.  Immediately after the skip the results
history holds the zeroed skipped record and the machine is in
PART_COMPLETED, but the recorder stopped by the skip still delivers its
armed submission: when the evaluation resolves, the returned feedback
overwrites the skipped record (and a continue signal even moves the machine
back to AI_SPEAKING), so the skip does not always result in the skipped
record standing in the results history. -/
theorem C4_counterexample :
    Reachable c4sSkip
    ∧ c4sRec.status = ExamStatus.USER_SPEAKING
    ∧ c4sRec.isRecording = true
    ∧ c4sSkip = step c4sRec Event.skipPart
    ∧ c4sSkip.resultsHistory ExamPart.INTRO = some skippedFeedback
    ∧ c4sSkip.status = ExamStatus.PART_COMPLETED
    ∧ c4sSkip.pendingSubmit = true
    ∧ (step c4sSkip (Event.submit (some finishResult))).resultsHistory ExamPart.INTRO =
        some sampleFeedback
    ∧ ¬ (step c4sSkip (Event.submit (some finishResult))).resultsHistory ExamPart.INTRO =
        some skippedFeedback
    ∧ (step c4sSkip (Event.submit (some contResult))).status = ExamStatus.AI_SPEAKING
    ∧ ¬ (step c4sSkip (Event.submit (some contResult))).status = ExamStatus.PART_COMPLETED :=
  ⟨Reachable.next c4sRec Event.skipPart
      (Reachable.next (step (initState ExamPart.INTRO false) Event.startExam)
        (Event.aiFinished true)
        (Reachable.next (initState ExamPart.INTRO false) Event.startExam
          (Reachable.base ExamPart.INTRO false))),
    by decide, by decide, rfl, by decide, by decide, by decide, by decide, by decide,
    by decide, by decide⟩

/-- C4 (amended): the skip handler itself always writes the zeroed record
tagged as skipped for the current part, stores it as current feedback, stops
any recording and moves the machine to PART_COMPLETED; when no recording is
active nothing further is armed, but when a recording is active the stopped
recorder still delivers one submission, and if its evaluation succeeds with
a concluding signal the returned feedback record overwrites the skipped
record for the part. -/
theorem C4_skip_corrected (s : ExamState)
    (h : s.status = ExamStatus.USER_PREP ∨ s.status = ExamStatus.USER_SPEAKING) :
    (handleSkipPart s).resultsHistory s.part = some skippedFeedback
    ∧ skippedFeedback.taskAchievementScore = 0
    ∧ skippedFeedback.pronunciationScore = 0
    ∧ skippedFeedback.grammarScore = 0
    ∧ skippedFeedback.fluencyCoherenceScore = 0
    ∧ skippedFeedback.feedbackText = "Part skipped by student."
    ∧ (handleSkipPart s).status = ExamStatus.PART_COMPLETED
    ∧ (handleSkipPart s).currentFeedback = some skippedFeedback
    ∧ (handleSkipPart s).isRecording = false
    ∧ (s.isRecording = false → (handleSkipPart s).pendingSubmit = s.pendingSubmit)
    ∧ (s.isRecording = true → (handleSkipPart s).pendingSubmit = true)
    ∧ (s.isRecording = true → ∀ r : EvalResult, r.moveNext = true →
        (step (handleSkipPart s) (Event.submit (some r))).resultsHistory s.part =
          some r.feedback) := by
  by_cases hr : s.isRecording
  · refine ⟨by simp [handleSkipPart, hr, updateHistory], rfl, rfl, rfl, rfl, rfl,
      by simp [handleSkipPart, hr], by simp [handleSkipPart, hr],
      by simp [handleSkipPart, hr], fun hc => ?_, fun _ => by simp [handleSkipPart, hr],
      fun _ r hmv => ?_⟩
    · rw [hr] at hc; cases hc
    · have hpend : (handleSkipPart s).pendingSubmit = true := by
        simp [handleSkipPart, hr]
      have hstep : step (handleSkipPart s) (Event.submit (some r)) =
          handleSubmission { handleSkipPart s with pendingSubmit := false } (some r) := by
        simp [step, hpend]
      have hsf : shouldFinish { handleSkipPart s with pendingSubmit := false } r = true := by
        simp [shouldFinish, hmv]
      rw [hstep]
      simp only [handleSubmission, hsf]
      simp [handleSkipPart, hr, updateHistory]
  · refine ⟨by simp [handleSkipPart, hr, updateHistory], rfl, rfl, rfl, rfl, rfl,
      by simp [handleSkipPart, hr], by simp [handleSkipPart, hr],
      by simp [handleSkipPart, hr], fun _ => by simp [handleSkipPart, hr],
      fun hc => ?_, fun hc => ?_⟩
    · rw [hc] at hr; exact absurd rfl hr
    · rw [hc] at hr; exact absurd rfl hr

theorem C4_skip_corrected_witness :
    (c4sRec.status = ExamStatus.USER_PREP ∨ c4sRec.status = ExamStatus.USER_SPEAKING)
    ∧ c4sRec.isRecording = true
    ∧ (handleSkipPart c4sRec).resultsHistory c4sRec.part = some skippedFeedback
    ∧ (handleSkipPart c4sRec).status = ExamStatus.PART_COMPLETED
    ∧ (handleSkipPart c4sRec).pendingSubmit = true
    ∧ (step (handleSkipPart c4sRec) (Event.submit (some finishResult))).resultsHistory
        c4sRec.part = some finishResult.feedback :=
  ⟨Or.inr (by decide), by decide,
    (C4_skip_corrected c4sRec (Or.inr (by decide))).1,
    (C4_skip_corrected c4sRec (Or.inr (by decide))).2.2.2.2.2.2.1,
    (C4_skip_corrected c4sRec (Or.inr (by decide))).2.2.2.2.2.2.2.2.2.2.1 (by decide),
    (C4_skip_corrected c4sRec (Or.inr (by decide))).2.2.2.2.2.2.2.2.2.2.2 (by decide)
      finishResult rfl⟩

/-- C5: a failed evaluation leaves the turn counter and the results history
unchanged, sets the visible prompt to the apology message, and returns the
machine to the idle, retry-eligible state; moreover a successful submission
either leaves the results history unchanged or writes the complete returned
record in a single update, so commits are atomic. -/
theorem C5_failure_atomic (s : ExamState) :
    (handleSubmission s none).turnCount = s.turnCount
    ∧ (handleSubmission s none).resultsHistory = s.resultsHistory
    ∧ (handleSubmission s none).aiMessage = apologyMessage
    ∧ (handleSubmission s none).status = ExamStatus.IDLE
    ∧ (∀ r, (handleSubmission s (some r)).resultsHistory = s.resultsHistory
        ∨ (handleSubmission s (some r)).resultsHistory =
            updateHistory s.resultsHistory s.part r.feedback) := by
  refine ⟨rfl, rfl, rfl, rfl, fun r => ?_⟩
  cases hb : shouldFinish s r
  · exact Or.inl (by simp [handleSubmission, hb])
  · exact Or.inr (by simp [handleSubmission, hb])

/-- C6: in every reachable state the countdown stays within
[0, totalDuration]; an enabled tick decreases it by exactly one; the tick
event does nothing outside USER_PREP and USER_SPEAKING; and once the
time-expired transition fires, its firing condition is false in the
resulting state, so it cannot fire twice for the same expiry. -/
theorem C6_timer (s : ExamState) (h : Reachable s) :
    s.timeLeft ≤ s.totalTime
    ∧ ((s.status = ExamStatus.USER_PREP ∨ s.status = ExamStatus.USER_SPEAKING) →
        0 < s.timeLeft → (step s Event.tick).timeLeft + 1 = s.timeLeft)
    ∧ (¬(s.status = ExamStatus.USER_PREP ∨ s.status = ExamStatus.USER_SPEAKING) →
        step s Event.tick = s)
    ∧ (∀ ok, ExpireEnabled s → ¬ ExpireEnabled (step s (Event.expire ok))) := by
  obtain ⟨h1, h2, h3, h4, h5, h6, h7⟩ := reachable_inv s h
  refine ⟨h6, fun hst hpos => ?_, fun hst => ?_, fun ok he => ?_⟩
  · have hs : step s Event.tick = tickStep s := by simp [step, hst, hpos]
    rw [hs]
    simp only [tickStep]
    split <;> omega
  · simp [step, hst]
  · obtain ⟨e1, e2, e3⟩ := he
    rcases e3 with hp | ⟨hu, hrec⟩
    · have hs : step s (Event.expire ok) = handlePrepDone s ok := by
        simp [step, e1, e2, hp]
      rw [hs]
      intro hcon
      obtain ⟨c1, _, _⟩ := hcon
      simp [handlePrepDone] at c1
    · have hne : s.status ≠ ExamStatus.USER_PREP := by simp [hu]
      have hs : step s (Event.expire ok) = stopRecording s := by
        simp [step, e1, e2, hu, hrec, hne]
      rw [hs]
      intro hcon
      obtain ⟨_, _, c3⟩ := hcon
      rcases c3 with hp2 | ⟨hu2, _⟩
      · simp [stopRecording, hrec] at hp2
      · simp [stopRecording, hrec] at hu2

theorem C6_timer_witness :
    (initState ExamPart.INTRO false).timeLeft ≤ (initState ExamPart.INTRO false).totalTime :=
  (C6_timer (initState ExamPart.INTRO false)
    (Reachable.base ExamPart.INTRO false)).1

/-- C7: the finish-willingly handler never writes to the results history
when no feedback record has been received; and in any reachable state where
the action is offered (USER_SPEAKING, no live recording, a positive turn
counter) a last-received feedback record exists, is the one committed for
the current part, and the machine moves to PART_COMPLETED. -/
theorem C7_finish (s : ExamState) (h : Reachable s) :
    (s.currentFeedback = none →
        (handleFinishWillingly s).resultsHistory = s.resultsHistory)
    ∧ (s.status = ExamStatus.USER_SPEAKING → s.isRecording = false →
        0 < s.turnCount →
        ∃ f, s.currentFeedback = some f
          ∧ (handleFinishWillingly s).resultsHistory s.part = some f
          ∧ (handleFinishWillingly s).status = ExamStatus.PART_COMPLETED) := by
  obtain ⟨h1, h2, h3, h4, h5, h6, h7⟩ := reachable_inv s h
  constructor
  · intro hn
    by_cases hr : s.isRecording <;>
      simp [handleFinishWillingly, hn, hr, stopRecording]
  · intro hu hrec hpos
    cases hcf : s.currentFeedback with
    | none => exact absurd (h5 hpos) (by simp [hcf])
    | some f =>
        exact ⟨f, rfl, by simp [handleFinishWillingly, hcf, updateHistory],
          by simp [handleFinishWillingly, hcf]⟩

theorem C7_finish_witness :
    c7State.status = ExamStatus.USER_SPEAKING
    ∧ c7State.isRecording = false
    ∧ 0 < c7State.turnCount
    ∧ ∃ f, c7State.currentFeedback = some f
        ∧ (handleFinishWillingly c7State).resultsHistory c7State.part = some f
        ∧ (handleFinishWillingly c7State).status = ExamStatus.PART_COMPLETED :=
  ⟨by decide, by decide, by decide,
    (C7_finish c7State c7State_reachable).2 (by decide) (by decide) (by decide)⟩

/-- C8 (claim as stated is false): a reachable state in which the AI has
just finished playing a follow-up prompt, the machine enters USER_SPEAKING,
but the countdown is 119, not the 120 the claim requires: the countdown is
not reset on follow-up turns. -/
theorem C8_counterexample :
    Reachable c8State
    ∧ c8State.status = ExamStatus.AI_SPEAKING
    ∧ c8State.isNewPart = false
    ∧ 0 < c8State.turnCount
    ∧ (step c8State (Event.aiFinished true)).status = ExamStatus.USER_SPEAKING
    ∧ (step c8State (Event.aiFinished true)).timeLeft = 119
    ∧ ¬ (step c8State (Event.aiFinished true)).timeLeft = 120 :=
  ⟨c8State_reachable, by decide, by decide, by decide, by decide, by decide, by decide⟩

/-- C8 (amended): on every follow-up turn, completion of the AI prompt
playback puts the machine directly into USER_SPEAKING and starts recording,
but the countdown keeps its previous remaining value rather than being set
to 120 seconds. -/
theorem C8_followup_no_reset (s : ExamState) (ok : Bool)
    (h1 : s.status = ExamStatus.AI_SPEAKING) (h2 : s.isNewPart = false) :
    (handleAiFinishedSpeaking s ok).status = ExamStatus.USER_SPEAKING
    ∧ (handleAiFinishedSpeaking s ok).timeLeft = s.timeLeft
    ∧ (handleAiFinishedSpeaking s ok).isRecording = ok := by
  cases hp : s.part <;>
    exact ⟨by simp [handleAiFinishedSpeaking, h1, h2, hp],
      by simp [handleAiFinishedSpeaking, h1, h2, hp],
      by simp [handleAiFinishedSpeaking, h1, h2, hp]⟩

theorem C8_followup_no_reset_witness :
    (handleAiFinishedSpeaking c8State true).status = ExamStatus.USER_SPEAKING
    ∧ (handleAiFinishedSpeaking c8State true).timeLeft = c8State.timeLeft
    ∧ (handleAiFinishedSpeaking c8State true).isRecording = true :=
  C8_followup_no_reset c8State true (by decide) (by decide)

/-- C9: the retry helper passes successes through; a failure that is not
quota-classified propagates immediately with no sleep; and when every
attempt fails with a quota-classified error, the call is retried exactly 5
times with a doubling delay before the final error propagates. -/
theorem C9_retry_policy (α : Type) (f : Nat → Except SvcError α) (d : Nat) :
    (∀ a, f 0 = Except.ok a → fetchWithRetry f 0 5 d = (Except.ok a, []))
    ∧ (∀ e, f 0 = Except.error e → isQuotaError e = false →
        fetchWithRetry f 0 5 d = (Except.error e, []))
    ∧ (∀ es : Nat → SvcError,
        (∀ i, i ≤ 5 → f i = Except.error (es i) ∧ isQuotaError (es i) = true) →
        fetchWithRetry f 0 5 d =
          (Except.error (es 5), [d, d * 2, d * 2 * 2, d * 2 * 2 * 2, d * 2 * 2 * 2 * 2])) := by
  refine ⟨fun a ha => ?_, fun e he hq => ?_, fun es hq => ?_⟩
  · simp [fetchWithRetry, ha]
  · simp [fetchWithRetry, he, hq]
  · have q0 := hq 0 (by omega)
    have q1 := hq 1 (by omega)
    have q2 := hq 2 (by omega)
    have q3 := hq 3 (by omega)
    have q4 := hq 4 (by omega)
    have q5 := hq 5 (by omega)
    simp [fetchWithRetry, q0.1, q0.2, q1.1, q1.2, q2.1, q2.2, q3.1, q3.2,
      q4.1, q4.2, q5.1, q5.2]

theorem C9_retry_policy_witness :
    fetchWithRetry (fun _ => (Except.error quotaErr : Except SvcError Unit)) 0 5 2000 =
      (Except.error quotaErr, [2000, 2000 * 2, 2000 * 2 * 2, 2000 * 2 * 2 * 2,
        2000 * 2 * 2 * 2 * 2])
    ∧ fetchWithRetry (fun _ => (Except.error fatalErr : Except SvcError Unit)) 0 5 2000 =
      (Except.error fatalErr, []) :=
  by
  refine ⟨(C9_retry_policy Unit (fun _ => Except.error quotaErr) 2000).2.2
      (fun _ => quotaErr) ?_,
    (C9_retry_policy Unit (fun _ => Except.error fatalErr) 2000).2.1
      fatalErr rfl (by decide)⟩
  intro i hi
  exact ⟨rfl, by show isQuotaError quotaErr = true; decide⟩

/-- C10: the feedback record built from a parsed exam-mode response is total:
each of the four sub-scores equals the parsed number when present and
defaults to 0 when absent, the feedback text defaults to the empty string,
and the mistakes, weaknesses and improvements lists default to empty lists,
so aggregation never meets an undefined field. -/
theorem C10_feedback_total (j : RawJson) :
    ((j.taskAchievementScore = none →
        (processStudentInputFeedback j).taskAchievementScore = 0)
      ∧ ∀ x, j.taskAchievementScore = some x →
          (processStudentInputFeedback j).taskAchievementScore = x)
    ∧ ((j.pronunciationScore = none →
        (processStudentInputFeedback j).pronunciationScore = 0)
      ∧ ∀ x, j.pronunciationScore = some x →
          (processStudentInputFeedback j).pronunciationScore = x)
    ∧ ((j.grammarScore = none →
        (processStudentInputFeedback j).grammarScore = 0)
      ∧ ∀ x, j.grammarScore = some x →
          (processStudentInputFeedback j).grammarScore = x)
    ∧ ((j.fluencyCoherenceScore = none →
        (processStudentInputFeedback j).fluencyCoherenceScore = 0)
      ∧ ∀ x, j.fluencyCoherenceScore = some x →
          (processStudentInputFeedback j).fluencyCoherenceScore = x)
    ∧ ((j.feedbackText = none → (processStudentInputFeedback j).feedbackText = "")
      ∧ ∀ t, j.feedbackText = some t →
          (processStudentInputFeedback j).feedbackText = t)
    ∧ ((j.mistakesAndCorrections = none →
        (processStudentInputFeedback j).mistakesAndCorrections = [])
      ∧ ∀ l, j.mistakesAndCorrections = some l →
          (processStudentInputFeedback j).mistakesAndCorrections = l)
    ∧ ((j.weaknesses = none → (processStudentInputFeedback j).weaknesses = [])
      ∧ ∀ l, j.weaknesses = some l →
          (processStudentInputFeedback j).weaknesses = l)
    ∧ ((j.improvements = none → (processStudentInputFeedback j).improvements = [])
      ∧ ∀ l, j.improvements = some l →
          (processStudentInputFeedback j).improvements = l) := by
  refine ⟨⟨fun hn => ?_, fun x hx => ?_⟩, ⟨fun hn => ?_, fun x hx => ?_⟩,
    ⟨fun hn => ?_, fun x hx => ?_⟩, ⟨fun hn => ?_, fun x hx => ?_⟩,
    ⟨fun hn => ?_, fun t ht => ?_⟩, ⟨fun hn => ?_, fun l hl => ?_⟩,
    ⟨fun hn => ?_, fun l hl => ?_⟩, ⟨fun hn => ?_, fun l hl => ?_⟩⟩ <;>
    first
      | simp_all [processStudentInputFeedback, jsOrNum, jsOrStr, jsOrList]
      | (simp_all [processStudentInputFeedback, jsOrNum, jsOrStr, jsOrList]
         <;> split <;> simp_all)

theorem C10_feedback_total_witness :
    (processStudentInputFeedback emptyRawJson).taskAchievementScore = 0
    ∧ (processStudentInputFeedback emptyRawJson).feedbackText = ""
    ∧ (processStudentInputFeedback emptyRawJson).mistakesAndCorrections = [] :=
  ⟨(C10_feedback_total emptyRawJson).1.1 rfl,
    (C10_feedback_total emptyRawJson).2.2.2.2.1.1 rfl,
    (C10_feedback_total emptyRawJson).2.2.2.2.2.1.1 rfl⟩

end Kuleli
